import Mathlib

/-!
Shallow embedding of `src/calendarweek.py` (CalendarWeek tray application),
covering the single-instance socket lock, the cross-instance notification
protocol, the listener loop, the calendar-window mutual exclusion, the
hourly tray refresh, the startup-path check, and the ISO-8601 week number
computation that `current_cw` delegates to.
-/

namespace CalendarWeek

/-! ## Single-instance lock model

The Python module keeps one global `LOCK_SOCKET` per process and binds a
TCP socket to the fixed loopback address `('127.0.0.1', 47200)`.  We model
the operating system's view of that one port (`portOwner`: the id of the
socket currently bound and listening, if any), a fresh-socket counter, the
per-process `LOCK_SOCKET` globals of two processes `A` and `B`, and the
queue of payloads delivered to the listening socket by accepted
connections. -/

/-- `LOCK_PORT = 47200` from the source. -/
def LOCK_PORT : Nat := 47200

/-- The 4 bytes `b'SHOW'` (ASCII `S`,`H`,`O`,`W`) sent by
`notify_existing_instance`. -/
def SHOW : List UInt8 := [83, 72, 79, 87]

/-- Process identities for the at-most-two-process scenarios of the spec. -/
inductive Pid where
  | A
  | B
deriving DecidableEq, Repr

/-- A payload delivered over a short-lived TCP connection, tagged with the
destination address the sender connected to. -/
structure Msg where
  host : String
  port : Nat
  payload : List UInt8
deriving DecidableEq, Repr

/-- System state for the single-instance mechanism: the OS socket table
restricted to port 47200 plus each process's `LOCK_SOCKET` global. -/
structure SysState where
  /-- next fresh socket id handed out by `socket.socket(...)` -/
  nextSock : Nat
  /-- id of the socket bound to `('127.0.0.1', 47200)` and listening, if any -/
  portOwner : Option Nat
  /-- process A's global `LOCK_SOCKET` (`none` models Python `None`) -/
  lockA : Option Nat
  /-- process B's global `LOCK_SOCKET` -/
  lockB : Option Nat
  /-- payloads sent by accepted connections, oldest first -/
  pending : List Msg
deriving DecidableEq, Repr

/-- Read a process's `LOCK_SOCKET` global. -/
def lockOf (p : Pid) (s : SysState) : Option Nat :=
  match p with
  | .A => s.lockA
  | .B => s.lockB

/-- Write a process's `LOCK_SOCKET` global. -/
def setLock (p : Pid) (v : Option Nat) (s : SysState) : SysState :=
  match p with
  | .A => { s with lockA := v }
  | .B => { s with lockB := v }

/-- Embedding of `acquire_single_instance_lock` (src lines 858–883) run by
process `p`:
`LOCK_SOCKET = socket.socket(...)` creates a fresh socket and stores it in
the global; `bind(('127.0.0.1', LOCK_PORT))` succeeds iff the port is free,
in which case `listen(1)` makes this socket the port owner and the function
returns `True`; on `socket.error` the fresh socket is closed, the global is
reset to `None`, and the function returns `False`. -/
def acquire_single_instance_lock (p : Pid) (s : SysState) : Bool × SysState :=
  let sock := s.nextSock
  let s1 := setLock p (some sock) { s with nextSock := s.nextSock + 1 }
  match s1.portOwner with
  | none => (true, { s1 with portOwner := some sock })
  | some _ => (false, setLock p none s1)

/-- Embedding of `release_single_instance_lock` (src lines 884–896) run by
process `p`: if the global `LOCK_SOCKET` is not `None`, close it (the OS
frees the port if this socket was the one bound to it) and set the global
to `None`; otherwise do nothing. -/
def release_single_instance_lock (p : Pid) (s : SysState) : SysState :=
  match lockOf p s with
  | none => s
  | some sock =>
      let s1 := if s.portOwner = some sock then { s with portOwner := none } else s
      setLock p none s1

/-- The body of the `try:` block of `notify_existing_instance`
(src lines 902–906): `connect(('127.0.0.1', LOCK_PORT))` succeeds iff some
socket is listening on the port, in which case `send(b'SHOW')` queues the
payload for the listener; with no listener the connect raises
(`ConnectionRefusedError`). -/
def connectAndSend (s : SysState) (payload : List UInt8) : Except String SysState :=
  match s.portOwner with
  | some _ => .ok { s with pending := s.pending ++ [⟨"127.0.0.1", LOCK_PORT, payload⟩] }
  | none => .error "ConnectionRefusedError"

/-- Embedding of `notify_existing_instance` (src lines 897–908): the whole
body is wrapped in `try: ... except: pass`, so any connection failure is
swallowed and the function always returns normally. -/
def notify_existing_instance (s : SysState) : SysState :=
  match connectAndSend s SHOW with
  | .ok s1 => s1
  | .error _ => s

/-- Outcome of one iteration of the `while True` loop of
`listen_for_new_instances` (src lines 973–988). `fatal` would be an
uncaught exception escaping the loop; the catch-all `except: break` means
it is never produced. -/
inductive ListenOutcome where
  /-- `break`: the loop terminates cleanly -/
  | stop
  /-- the iteration would block in `accept()` waiting for a connection -/
  | wouldBlock
  /-- a connection was accepted and handled; `spawnShow` is true iff a
  daemon thread running `show_calendar` was spawned for it -/
  | handled (spawnShow : Bool)
  /-- an exception escaped the loop body uncaught -/
  | fatal
deriving DecidableEq, Repr

/-- One iteration of the `while True` loop of `listen_for_new_instances`
(src lines 973–988) run in process `p`. `fault = true` injects an OS error
raised inside `accept()`/`recv()` (for example the bound socket having been
closed by `release_single_instance_lock` while the loop blocked); the
`except:` clause turns it into `break`. Otherwise: if the global
`LOCK_SOCKET` is `None` the loop breaks; `accept()` on a socket that is
not the listening owner of the port raises, hence breaks; with a pending
connection the payload is received, the connection closed, and a daemon
thread running `show_calendar` is spawned iff the payload equals `b'SHOW'`;
with no pending connection `accept()` blocks. -/
def listen_for_new_instances_iter (p : Pid) (fault : Bool) (s : SysState) :
    ListenOutcome × SysState :=
  match lockOf p s with
  | none => (.stop, s)
  | some sock =>
      if fault then (.stop, s)
      else if s.portOwner = some sock then
        match s.pending with
        | [] => (.wouldBlock, s)
        | m :: rest => (.handled (m.payload = SHOW), { s with pending := rest })
      else (.stop, s)

/-- Result of the startup portion of `run` (src lines 915–938). -/
inductive RunResult where
  /-- `sys.exit(code)` was reached; `uiShown` records whether any tray or
  window UI was created before exiting -/
  | exited (code : Nat) (uiShown : Bool)
  /-- the process became the active instance and proceeds to build the tray
  icon -/
  | active
deriving DecidableEq, Repr

/-- Embedding of the single-instance check at the top of `run`
(src lines 926–931) for process `p`: if `acquire_single_instance_lock()`
returns `False`, the process calls `notify_existing_instance()` and then
`sys.exit(0)` without creating any UI; otherwise it continues as the
active instance. -/
def run_startup (p : Pid) (s : SysState) : RunResult × SysState :=
  let r := acquire_single_instance_lock p s
  if r.1 then (.active, r.2)
  else (.exited 0 false, notify_existing_instance r.2)

/-- The empty initial system state: no socket created, port 47200 free,
both processes' `LOCK_SOCKET` globals `None`, nothing pending. -/
def sysInit : SysState := ⟨0, none, none, none, []⟩

/-! ## Calendar window model

`show_calendar` (src lines 526–801) guards the global `calendar_window`
with `window_lock`.  The source takes the lock twice: once for the
existence check (lines 544–552) and again, after `tk.Tk()` has created the
window outside the lock, to store the reference (lines 572–573).  We model
each `show_calendar` call as a thread running through three atomic phases —
the locked check, the unlocked window creation, the locked store — so that
interleavings of two near-simultaneous calls can be examined.  `on_close`
(src lines 765–784) clears the reference under the lock and destroys the
window. -/

/-- Shared window state: the global `calendar_window` reference, the list
of live (created, not destroyed) toplevel windows, and a fresh-id
counter. -/
structure WinState where
  /-- the global `calendar_window` (`None` modeled as `none`) -/
  calendar_window : Option Nat
  /-- ids of windows created by `tk.Tk()` and not yet destroyed -/
  live : List Nat
  /-- next fresh window id -/
  nextWin : Nat
deriving DecidableEq, Repr

/-- Control state of one thread executing `show_calendar`. -/
inductive ShowPhase where
  /-- about to run the locked existence check (src lines 544–552) -/
  | ready
  /-- the check saw no usable window; about to run `tk.Tk()` and build the
  widget tree (src lines 560–569), outside the lock -/
  | toCreate
  /-- window `w` was created; about to store it in `calendar_window` under
  the lock (src lines 572–573) -/
  | toStore (w : Nat)
  /-- the call returned; `lifted` is true iff it returned early by lifting
  an existing window instead of creating one -/
  | done (lifted : Bool)
deriving DecidableEq, Repr

/-- One atomic step of a thread executing `show_calendar`.  In `ready`,
the thread holds `window_lock` for the check: if `calendar_window` is a
live window it lifts and focuses it and returns; if the reference is stale
(window already destroyed, the `tk.TclError` branch) it clears it and
falls through; if it is `None` it falls through.  In `toCreate`, outside
the lock, `tk.Tk()` creates a fresh window.  In `toStore`, the thread
holds `window_lock` again and stores its window in `calendar_window`. -/
def show_calendar_step (w : WinState) (t : ShowPhase) : WinState × ShowPhase :=
  match t with
  | .ready =>
      match w.calendar_window with
      | some win =>
          if win ∈ w.live then (w, .done true)
          else ({ w with calendar_window := none }, .toCreate)
      | none => (w, .toCreate)
  | .toCreate =>
      let win := w.nextWin
      ({ w with live := w.live ++ [win], nextWin := w.nextWin + 1 }, .toStore win)
  | .toStore win => ({ w with calendar_window := some win }, .done false)
  | .done b => (w, .done b)

/-- Embedding of `on_close` (src lines 765–784) for window `win`: under
`window_lock` the global `calendar_window` is set to `None`, then
`root.destroy()` removes the window. -/
def on_close (win : Nat) (w : WinState) : WinState :=
  { w with calendar_window := none, live := w.live.filter (fun x => x ≠ win) }

/-- Two threads running `show_calendar` concurrently, plus the shared
window state. -/
structure TwoThreads where
  win : WinState
  t0 : ShowPhase
  t1 : ShowPhase
deriving DecidableEq, Repr

/-- Run one step of thread 0 or thread 1, by scheduler choice. -/
def schedStep (s : TwoThreads) (choice : Bool) : TwoThreads :=
  if choice then
    let r := show_calendar_step s.win s.t1
    { s with win := r.1, t1 := r.2 }
  else
    let r := show_calendar_step s.win s.t0
    { s with win := r.1, t0 := r.2 }

/-- Run a whole schedule (a list of scheduler choices). -/
def runSched (s : TwoThreads) (sched : List Bool) : TwoThreads :=
  sched.foldl schedStep s

/-- Initial state for the two-open-requests scenario: no window open, both
threads entering `show_calendar`. -/
def twoOpenInit : TwoThreads := ⟨⟨none, [], 0⟩, .ready, .ready⟩

/-! ## Hourly tray refresh model

`start_auto_refresh` (src lines 399–420) runs `refresh_loop` in a daemon
thread: every `interval` seconds it recomputes the week number and, only
if it differs from `last_cw`, replaces the tray icon image and title and
updates `last_cw`. -/

/-- The tray icon state touched by the refresh loop.  The icon bitmap is
produced by `create_icon(cw)` (an external rasterizer); we track the week
number it was rendered from. -/
structure TrayIcon where
  /-- the week number the current icon bitmap was rendered from -/
  iconCw : Int
  /-- the tooltip text -/
  title : String
deriving DecidableEq, Repr

/-- Python's `format(n, '02d')`: decimal digits, zero-padded on the left
to width 2, as used by `f"Week \x7bnew_cw:02d\x7d"`. -/
def pad02 (n : Int) : String :=
  if 0 ≤ n && n < 10 then "0" ++ toString n else toString n

/-- One iteration of the `while icon.visible` body of `refresh_loop`
(src lines 411–417), after the sleep: `new_cw` is the freshly computed
week number, `last` the loop variable `last_cw`.  Returns the updated
`last_cw` and icon state. -/
def refresh_loop_iter (new_cw last : Int) (icon : TrayIcon) : Int × TrayIcon :=
  if new_cw ≠ last then
    (new_cw, { iconCw := new_cw, title := "Week " ++ pad02 new_cw })
  else (last, icon)

/-! ## Startup path check model

`check_startup_path` (src lines 322–347) consults three collaborators:
`is_in_startup()` (registry/file existence), `get_registered_path()`
(which may return `None` when the entry cannot be read or parsed), and
`get_exe_path()`, and compares paths after `os.path.normpath`.  These
collaborators are platform glue; we pass their results, and `normpath`,
as an explicit environment. -/

/-- Results of the platform collaborators consulted by
`check_startup_path`, plus `os.path.normpath`. -/
structure StartupEnv where
  /-- result of `is_in_startup()` -/
  is_in_startup : Bool
  /-- result of `get_registered_path()`; `none` models Python `None`
  (entry missing, unreadable, or unparsable) -/
  get_registered_path : Option String
  /-- result of `get_exe_path()` -/
  get_exe_path : String
  /-- `os.path.normpath` -/
  normpath : String → String

/-- Python truthiness of `registered` in `if registered and ...`:
`None` and the empty string are falsy. -/
def truthyStr : Option String → Bool
  | none => false
  | some s => s ≠ ""

/-- Embedding of `check_startup_path` (src lines 322–347): returns
`(True, None)` when not registered for startup; otherwise reads the
registered path and reports a mismatch message only when that path is
truthy and its normalized form differs from the normalized current
executable path. -/
def check_startup_path (env : StartupEnv) : Bool × Option String :=
  if ¬ env.is_in_startup then (true, none)
  else
    let registered := env.get_registered_path
    let current := env.get_exe_path
    if truthyStr registered ∧
        env.normpath (registered.getD "") ≠ env.normpath current then
      (false, some ("The application has been moved. Registered path: " ++
        registered.getD "" ++ " Current path: " ++ current))
    else (true, none)

/-! ## ISO-8601 week number

`current_cw` (src lines 381–392) returns
`datetime.date.today().isocalendar().week`.  The week computation is
CPython's `datetime.date.isocalendar` over the proleptic Gregorian
calendar; we embed that algorithm (`_is_leap`, `_days_before_year`,
`_days_in_month`, `_days_before_month`, `_ymd2ord`, `_isoweek1monday`,
`isocalendar` from CPython's `datetime` module), parametrized by the date
`today()` returns.  Python's floor division and modulo on integers are
`Int.ediv` and `Int.emod` (the divisors here are positive).  Ordinal day 1
is 0001-01-01, a Monday. -/

/-- CPython `_is_leap(year)` (Python `%` on a positive divisor is
`Int.emod`). -/
def is_leap (year : Int) : Bool :=
  year % 4 == 0 && (year % 100 != 0 || year % 400 == 0)

/-- CPython `_days_before_year(year)`: days in the proleptic Gregorian
calendar strictly before January 1 of `year` (floor division, as in
Python). -/
def days_before_year (year : Int) : Int :=
  let y := year - 1
  y * 365 + y / 4 - y / 100 + y / 400

/-- CPython `_DAYS_IN_MONTH[month]` (non-leap February). -/
def DAYS_IN_MONTH (m : Int) : Int :=
  if m = 1 then 31 else if m = 2 then 28 else if m = 3 then 31
  else if m = 4 then 30 else if m = 5 then 31 else if m = 6 then 30
  else if m = 7 then 31 else if m = 8 then 31 else if m = 9 then 30
  else if m = 10 then 31 else if m = 11 then 30 else 31

/-- CPython `_days_in_month(year, month)`. -/
def days_in_month (year month : Int) : Int :=
  if month = 2 ∧ is_leap year then 29 else DAYS_IN_MONTH month

/-- CPython `_DAYS_BEFORE_MONTH[month]`: days in a non-leap year strictly
before the first of `month`. -/
def DAYS_BEFORE_MONTH (m : Int) : Int :=
  if m = 1 then 0 else if m = 2 then 31 else if m = 3 then 59
  else if m = 4 then 90 else if m = 5 then 120 else if m = 6 then 151
  else if m = 7 then 181 else if m = 8 then 212 else if m = 9 then 243
  else if m = 10 then 273 else if m = 11 then 304 else 334

/-- CPython `_days_before_month(year, month)`. -/
def days_before_month (year month : Int) : Int :=
  DAYS_BEFORE_MONTH month + (if 2 < month ∧ is_leap year then 1 else 0)

/-- CPython `_ymd2ord(year, month, day)`: proleptic Gregorian ordinal,
with 0001-01-01 as day 1. -/
def ymd2ord (year month day : Int) : Int :=
  days_before_year year + days_before_month year month + day

/-- The valid dates of Python's `datetime.date`
(`MINYEAR = 1`, `MAXYEAR = 9999`, `_check_date_fields`). -/
def ValidDate (year month day : Int) : Prop :=
  1 ≤ year ∧ year ≤ 9999 ∧ 1 ≤ month ∧ month ≤ 12 ∧
  1 ≤ day ∧ day ≤ days_in_month year month

instance (y m d : Int) : Decidable (ValidDate y m d) := by
  unfold ValidDate; infer_instance

/-- CPython `_isoweek1monday(year)`: ordinal of the Monday starting ISO
week 1 of `year` (`THURSDAY = 3`, weekday `(ord + 6) % 7` with
Monday = 0). -/
def isoweek1monday (year : Int) : Int :=
  let firstday := ymd2ord year 1 1
  let firstweekday := (firstday + 6) % 7
  let week1monday := firstday - firstweekday
  if firstweekday > 3 then week1monday + 7 else week1monday

/-- CPython `date.isocalendar(self)` as a triple
`(ISO year, ISO week, ISO weekday)`, for the date `(y, m, d)`. -/
def isocalendar (y m d : Int) : Int × Int × Int :=
  let today := ymd2ord y m d
  let week1monday := isoweek1monday y
  let week := (today - week1monday) / 7
  let day := (today - week1monday) % 7
  if week < 0 then
    let w1m := isoweek1monday (y - 1)
    (y - 1, (today - w1m) / 7 + 1, (today - w1m) % 7 + 1)
  else if week ≥ 52 then
    if today ≥ isoweek1monday (y + 1) then (y + 1, 1, day + 1)
    else (y, week + 1, day + 1)
  else (y, week + 1, day + 1)

/-- Embedding of `current_cw` (src lines 381–392) with `today()`
made explicit: `datetime.date.today().isocalendar().week`. -/
def current_cw (y m d : Int) : Int := (isocalendar y m d).2.1

/-! ### Spec-side characterization of the ISO week

Written from the spec's words: weeks start on Monday, and week 1 of a year
is the week containing that year's first Thursday.  Grounding: ordinal 1
(0001-01-01) is a Monday in the proleptic Gregorian calendar, so the
weekday of ordinal `o` (Monday = 0, …, Thursday = 3) is `(o - 1) mod 7`. -/

/-- Weekday of ordinal `o`, Monday = 0, Thursday = 3 (0001-01-01 is a
Monday). -/
def weekdaySpec (o : Int) : Int := (o - 1) % 7

/-- The Monday on or before ordinal `o`: the first day of `o`'s
Monday-start week. -/
def mondayOnOrBefore (o : Int) : Int := o - (o - 1) % 7

/-- The first Thursday of year `y`: the least ordinal on or after
January 1 of `y` whose weekday is Thursday. -/
def firstThursday (y : Int) : Int :=
  let jan1 := ymd2ord y 1 1
  jan1 + (4 - jan1) % 7

/-- Spec reading of "week 1 is the week that contains the year's first
Thursday" with Monday-start weeks: the Monday beginning ISO week 1 of
year `y`. -/
def week1MondaySpec (y : Int) : Int := mondayOnOrBefore (firstThursday y)

/-- State after process A's successful acquire in the two-process
scenario. -/
def scenAfterA : SysState := (acquire_single_instance_lock .A sysInit).2

/-- State after process B's failed acquire. -/
def scenAfterB : SysState := (acquire_single_instance_lock .B scenAfterA).2

/-- State after process B's `notify_existing_instance()`. -/
def scenAfterNotify : SysState := notify_existing_instance scenAfterB

/-- C2 failing run: the interleaving in which both `show_calendar`
threads pass the locked existence check (src lines 544–552) before either
has stored its window (src lines 572–573).  Schedule: thread 0 checks,
thread 1 checks, thread 0 creates and stores, thread 1 creates and
stores. -/
def raceSched : List Bool := [false, true, false, false, true, true]

/-! ## Helper lemmas -/

@[simp]
theorem lockOf_setLock_same (p : Pid) (v : Option Nat) (s : SysState) :
    lockOf p (setLock p v s) = v := by
  cases p <;> rfl

@[simp]
theorem portOwner_setLock (p : Pid) (v : Option Nat) (s : SysState) :
    (setLock p v s).portOwner = s.portOwner := by
  cases p <;> rfl

@[simp]
theorem nextSock_setLock (p : Pid) (v : Option Nat) (s : SysState) :
    (setLock p v s).nextSock = s.nextSock := by
  cases p <;> rfl

@[simp]
theorem pending_setLock (p : Pid) (v : Option Nat) (s : SysState) :
    (setLock p v s).pending = s.pending := by
  cases p <;> rfl

/-- `acquire_single_instance_lock` returns `True` exactly when port 47200
was free. -/
theorem acquire_fst (p : Pid) (s : SysState) :
    (acquire_single_instance_lock p s).1 = true ↔ s.portOwner = none := by
  cases p <;> rcases h : s.portOwner with _ | k <;>
    simp [acquire_single_instance_lock, setLock, h]

/-- After a successful acquire, the fresh socket owns the port. -/
theorem acquire_portOwner_of_true (p : Pid) (s : SysState)
    (h : (acquire_single_instance_lock p s).1 = true) :
    (acquire_single_instance_lock p s).2.portOwner = some s.nextSock := by
  cases p <;> rcases hpo : s.portOwner with _ | k <;>
    simp [acquire_single_instance_lock, setLock, hpo] at h ⊢

/-- A failed acquire leaves the port owner unchanged. -/
theorem acquire_portOwner_of_false (p : Pid) (s : SysState)
    (h : (acquire_single_instance_lock p s).1 = false) :
    (acquire_single_instance_lock p s).2.portOwner = s.portOwner := by
  cases p <;> rcases hpo : s.portOwner with _ | k <;>
    simp [acquire_single_instance_lock, setLock, hpo] at h ⊢

/-- After `release_single_instance_lock`, the process's `LOCK_SOCKET`
global is `None`. -/
theorem release_lockOf (p : Pid) (s : SysState) :
    lockOf p (release_single_instance_lock p s) = none := by
  cases p
  case A =>
    rcases h : s.lockA with _ | k <;>
      simp [release_single_instance_lock, lockOf, setLock, h]
  case B =>
    rcases h : s.lockB with _ | k <;>
      simp [release_single_instance_lock, lockOf, setLock, h]

/-- `release_single_instance_lock` does nothing when the `LOCK_SOCKET`
global is already `None`. -/
theorem release_of_none (p : Pid) (s : SysState) (h : lockOf p s = none) :
    release_single_instance_lock p s = s := by
  cases p
  case A =>
    have hA : s.lockA = none := h
    simp [release_single_instance_lock, lockOf, hA]
  case B =>
    have hB : s.lockB = none := h
    simp [release_single_instance_lock, lockOf, hB]

/-! ## Claim theorems -/

/-- C1: if `acquire_single_instance_lock()` succeeds (returns `True`, the
caller becomes the active instance holding the binding to port 47200),
then a second call to `acquire_single_instance_lock()` in the same session
— by the same or another process — without an intervening release returns
`False`. -/
theorem acquire_twice_true_then_false (p q : Pid) (s : SysState)
    (h : (acquire_single_instance_lock p s).1 = true) :
    (acquire_single_instance_lock q (acquire_single_instance_lock p s).2).1 = false := by
  have h2 := acquire_portOwner_of_true p s h
  generalize hg : (acquire_single_instance_lock p s).2 = s' at h2 ⊢
  cases q <;> simp [acquire_single_instance_lock, setLock, h2]

/-- Witness for C1: from the fresh initial state, process A's acquire
returns `True` and an immediately following acquire returns `False`. -/
theorem acquire_twice_true_then_false_witness :
    (acquire_single_instance_lock .A sysInit).1 = true ∧
    (acquire_single_instance_lock .B (acquire_single_instance_lock .A sysInit).2).1 = false :=
  ⟨by decide, acquire_twice_true_then_false .A .B sysInit (by decide)⟩

/-- C6: `release_single_instance_lock()` is idempotent: in any state —
including states where the lock is not held, where the function is a
no-op thanks to the `None` check — a second call leaves the state
identical to the state after the first call (and the embedded function is
total: the `try/except` around `close()` means no call raises). -/
theorem release_idempotent (p : Pid) (s : SysState) :
    release_single_instance_lock p (release_single_instance_lock p s) =
      release_single_instance_lock p s :=
  release_of_none p _ (release_lockOf p s)

/-- C7: round trip of the instance lock: from any state in which the lock
is held (the process's `LOCK_SOCKET` is the socket bound to port 47200),
after `release_single_instance_lock()` a subsequent
`acquire_single_instance_lock()` on the same well-known address — by any
process — succeeds: the address is reusable. -/
theorem release_then_acquire_succeeds (p q : Pid) (s : SysState) (k : Nat)
    (hlock : lockOf p s = some k) (hown : s.portOwner = some k) :
    (acquire_single_instance_lock q (release_single_instance_lock p s)).1 = true := by
  rw [acquire_fst]
  cases p
  case A =>
    have hA : s.lockA = some k := hlock
    simp [release_single_instance_lock, lockOf, setLock, hA, hown]
  case B =>
    have hB : s.lockB = some k := hlock
    simp [release_single_instance_lock, lockOf, setLock, hB, hown]

/-- Witness for C7: a state where process A holds the lock with socket 0;
after release, a fresh acquire succeeds. -/
theorem release_then_acquire_succeeds_witness :
    lockOf .A ⟨1, some 0, some 0, none, []⟩ = some 0 ∧
    SysState.portOwner ⟨1, some 0, some 0, none, []⟩ = some 0 ∧
    (acquire_single_instance_lock .A
      (release_single_instance_lock .A ⟨1, some 0, some 0, none, []⟩)).1 = true :=
  ⟨by decide, by decide,
    release_then_acquire_succeeds .A .A ⟨1, some 0, some 0, none, []⟩ 0
      (by decide) (by decide)⟩

/-- C4: `notify_existing_instance()` never raises an observable error:
when no listener holds the well-known address the underlying `connect`
raises `ConnectionRefusedError`, the `except: pass` swallows it, and the
call returns normally with the state unchanged; and in `run`, whenever
`acquire_single_instance_lock()` returns `False`, the process invokes
`notify_existing_instance()` and exits with status 0 — with no UI shown —
regardless of delivery success. -/
theorem notify_best_effort_and_redundant_exit :
    (∀ s : SysState, s.portOwner = none →
      connectAndSend s SHOW = Except.error "ConnectionRefusedError" ∧
      notify_existing_instance s = s) ∧
    (∀ (p : Pid) (s : SysState), (acquire_single_instance_lock p s).1 = false →
      run_startup p s =
        (RunResult.exited 0 false,
          notify_existing_instance (acquire_single_instance_lock p s).2)) := by
  constructor
  · intro s h
    constructor
    · simp [connectAndSend, h]
    · simp [notify_existing_instance, connectAndSend, h]
  · intro p s h
    simp [run_startup, h]

/-- Witness for C4: in the fresh state nobody listens, so notify is a
silently-ignored no-op; and in a state where the port is already owned,
the redundant process's startup notifies and exits 0 with no UI. -/
theorem notify_best_effort_and_redundant_exit_witness :
    (connectAndSend sysInit SHOW = Except.error "ConnectionRefusedError" ∧
      notify_existing_instance sysInit = sysInit) ∧
    run_startup .B ⟨1, some 0, some 0, none, []⟩ =
      (RunResult.exited 0 false,
        notify_existing_instance
          (acquire_single_instance_lock .B ⟨1, some 0, some 0, none, []⟩).2) :=
  ⟨notify_best_effort_and_redundant_exit.1 sysInit (by decide),
    notify_best_effort_and_redundant_exit.2 .B ⟨1, some 0, some 0, none, []⟩ (by decide)⟩

/-- C3: characterization of one iteration of the listener loop of
`listen_for_new_instances`.  The iteration never lets an exception escape
(`fatal` is unreachable); a released binding (`LOCK_SOCKET is None`) makes
the loop break cleanly with the state untouched; any error raised inside
the loop body makes it break cleanly; and a `show_calendar` thread is
spawned — asynchronously, the loop itself merely consumes the connection
and continues — exactly when the process's lock socket is the listening
owner of the port, no error occurred, and the received payload equals
`b'SHOW'`. -/
theorem listen_iter_characterization (p : Pid) (fault : Bool) (s : SysState) :
    (listen_for_new_instances_iter p fault s).1 ≠ ListenOutcome.fatal ∧
    (lockOf p s = none →
      listen_for_new_instances_iter p fault s = (ListenOutcome.stop, s)) ∧
    (fault = true → (listen_for_new_instances_iter p fault s).1 = ListenOutcome.stop) ∧
    ((listen_for_new_instances_iter p fault s).1 = ListenOutcome.handled true ↔
      (∃ k, lockOf p s = some k ∧ s.portOwner = some k) ∧ fault = false ∧
      ∃ m rest, s.pending = m :: rest ∧ m.payload = SHOW) ∧
    (∀ b, (listen_for_new_instances_iter p fault s).1 = ListenOutcome.handled b →
      (listen_for_new_instances_iter p fault s).2 = { s with pending := s.pending.tail }) := by
  unfold listen_for_new_instances_iter
  rcases hl : lockOf p s with _ | sock
  · simp
  · cases fault
    · by_cases hown : s.portOwner = some sock
      · rcases hp : s.pending with _ | ⟨m, rest⟩
        · simp [hown, hp]
        · by_cases hm : m.payload = SHOW <;>
            simp_all [hown, hp, hm]
      · simp [hown]
    · simp

/-- Witness for C3: with process A listening on socket 0 and a pending
`SHOW` payload, the iteration handles it and spawns the callback; with a
fault injected it stops; and after release of the binding (lock `None`)
it stops leaving the state untouched. -/
theorem listen_iter_characterization_witness :
    listen_for_new_instances_iter .A false sysInit = (ListenOutcome.stop, sysInit) ∧
    (listen_for_new_instances_iter .A false
        ⟨1, some 0, some 0, none, [⟨"127.0.0.1", 47200, SHOW⟩]⟩).1 =
      ListenOutcome.handled true ∧
    (listen_for_new_instances_iter .A true
        ⟨1, some 0, some 0, none, [⟨"127.0.0.1", 47200, SHOW⟩]⟩).1 =
      ListenOutcome.stop :=
  ⟨(listen_iter_characterization .A false sysInit).2.1 (by decide),
    ((listen_iter_characterization .A false
        ⟨1, some 0, some 0, none, [⟨"127.0.0.1", 47200, SHOW⟩]⟩).2.2.2.1).mpr
      ⟨⟨0, by decide, by decide⟩, rfl,
        ⟨⟨"127.0.0.1", 47200, SHOW⟩, [], by decide, by decide⟩⟩,
    (listen_iter_characterization .A true
        ⟨1, some 0, some 0, none, [⟨"127.0.0.1", 47200, SHOW⟩]⟩).2.2.1 rfl⟩

/-- C5: end-to-end signal delivery.  From the fresh session: process A's
acquire returns `True`; process B's acquire returns `False`; B's
`notify_existing_instance()` connects to the fixed loopback address
`127.0.0.1` port `47200` and sends exactly the 4 bytes `SHOW`; one
iteration of A's listener then receives that payload and spawns the
show-calendar callback, exactly once for that notification: the payload
is consumed (the state returns to the pre-notification state) and a
further iteration finds nothing to accept. -/
theorem end_to_end_show_delivery :
    (acquire_single_instance_lock .A sysInit).1 = true ∧
    (acquire_single_instance_lock .B scenAfterA).1 = false ∧
    LOCK_PORT = 47200 ∧ SHOW.length = 4 ∧
    scenAfterNotify.pending = [⟨"127.0.0.1", LOCK_PORT, SHOW⟩] ∧
    listen_for_new_instances_iter .A false scenAfterNotify =
      (ListenOutcome.handled true, scenAfterB) ∧
    listen_for_new_instances_iter .A false scenAfterB =
      (ListenOutcome.wouldBlock, scenAfterB) := by
  decide

/-- C2, evaluated at the failing interleaving: starting with no window
open and two near-simultaneous `show_calendar` requests, both threads see
"no window" (neither returns by lifting: both end in `done false`), two
windows are created and both are live at the end, and the global
`calendar_window` reference retains only the second.  This contradicts
the claim that the locked check-and-set prevents two near-simultaneous
open requests from both seeing "no window" and both creating a window:
the source releases `window_lock` between the check and the store. -/
theorem show_calendar_double_create :
    (runSched twoOpenInit raceSched).win.live = [0, 1] ∧
    (runSched twoOpenInit raceSched).win.live.length = 2 ∧
    (runSched twoOpenInit raceSched).t0 = ShowPhase.done false ∧
    (runSched twoOpenInit raceSched).t1 = ShowPhase.done false ∧
    (runSched twoOpenInit raceSched).win.calendar_window = some 1 := by
  decide

/-- C9: one tick of the hourly refresh loop updates the tray icon and its
title if and only if the newly computed week number differs (by value
equality, `new_cw != last_cw`) from the last displayed one; when the
value is unchanged the icon state is left entirely unmodified, and when
it changed the icon is re-rendered from the new number and the title
becomes `Week NN`. -/
theorem refresh_updates_iff_changed (new_cw last : Int) (icon : TrayIcon) :
    (refresh_loop_iter new_cw last icon = (last, icon) ↔ new_cw = last) ∧
    (new_cw ≠ last → refresh_loop_iter new_cw last icon =
      (new_cw, ⟨new_cw, "Week " ++ pad02 new_cw⟩)) := by
  constructor
  · constructor
    · intro h
      by_contra hne
      unfold refresh_loop_iter at h
      rw [if_pos hne] at h
      exact hne (congrArg Prod.fst h)
    · intro h
      subst h
      simp [refresh_loop_iter]
  · intro h
    simp [refresh_loop_iter, h]

/-- Witness for C9: going from week 41 to week 42 updates icon and title;
seeing week 41 again changes nothing. -/
theorem refresh_updates_iff_changed_witness :
    refresh_loop_iter 42 41 ⟨41, "Week 41"⟩ = (42, ⟨42, "Week 42"⟩) ∧
    refresh_loop_iter 41 41 ⟨41, "Week 41"⟩ = (41, ⟨41, "Week 41"⟩) :=
  ⟨((refresh_updates_iff_changed 42 41 ⟨41, "Week 41"⟩).2 (by decide)).trans (by decide),
    (refresh_updates_iff_changed 41 41 ⟨41, "Week 41"⟩).1.mpr rfl⟩

/-- C10: `check_startup_path()` returns `(True, None)` whenever the
application is not registered for startup, and whenever the registered
path cannot be read (`get_registered_path()` returned `None`); a mismatch
result `(False, message)` is produced only when a registered path string
exists, is non-empty (Python truthiness), and its normalized form differs
from the normalized current executable path — an unreadable or corrupt
registration is silently treated as valid. -/
theorem check_startup_path_valid_or_mismatch (env : StartupEnv) :
    (env.is_in_startup = false → check_startup_path env = (true, none)) ∧
    (env.get_registered_path = none → check_startup_path env = (true, none)) ∧
    ((check_startup_path env).1 = false →
      ∃ s, env.get_registered_path = some s ∧ s ≠ "" ∧
        env.normpath s ≠ env.normpath env.get_exe_path) := by
  refine ⟨?_, ?_, ?_⟩
  · intro h
    simp [check_startup_path, h]
  · intro h
    unfold check_startup_path
    split_ifs <;> simp_all [truthyStr]
  · intro h
    unfold check_startup_path at h
    split_ifs at h with h1
    · dsimp only at h
      split_ifs at h with h2
      · rcases hr : env.get_registered_path with _ | s
        · rw [hr] at h2
          exact absurd h2.1 (by simp [truthyStr])
        · rw [hr] at h2
          refine ⟨s, by simp [hr], ?_, ?_⟩
          · simpa [truthyStr] using h2.1
          · simpa using h2.2

/-- Witness for C10: not registered for startup, and a `None` registered
path, both yield `(True, None)`. -/
theorem check_startup_path_valid_or_mismatch_witness :
    check_startup_path ⟨false, none, "x", fun s => s⟩ = (true, none) ∧
    check_startup_path ⟨true, none, "x", fun s => s⟩ = (true, none) :=
  ⟨(check_startup_path_valid_or_mismatch ⟨false, none, "x", fun s => s⟩).1 rfl,
    (check_startup_path_valid_or_mismatch ⟨true, none, "x", fun s => s⟩).2.1 rfl⟩

/-- One Gregorian year is 366 days when leap, 365 otherwise, measured
between consecutive January firsts. -/
theorem ymd2ord_jan1_succ (y : Int) :
    ymd2ord (y + 1) 1 1 - ymd2ord y 1 1 = if is_leap y then 366 else 365 := by
  unfold ymd2ord days_before_year days_before_month DAYS_BEFORE_MONTH is_leap
  norm_num
  split_ifs with h
  · omega
  · omega

/-- The Monday of ISO week 1 lies within three days of January 1 and is a
Monday (ordinal congruent to 1 modulo 7). -/
theorem isoweek1monday_bounds (y : Int) :
    ymd2ord y 1 1 - 3 ≤ isoweek1monday y ∧ isoweek1monday y ≤ ymd2ord y 1 1 + 3 ∧
    (isoweek1monday y - 1) % 7 = 0 := by
  unfold isoweek1monday
  dsimp only
  omega

/-- The spec-side "Monday of the week containing the year's first
Thursday" coincides with CPython's `_isoweek1monday`. -/
theorem week1MondaySpec_eq (y : Int) : week1MondaySpec y = isoweek1monday y := by
  unfold week1MondaySpec mondayOnOrBefore firstThursday isoweek1monday
  dsimp only
  omega

/-- Every valid date's ordinal lies between its year's January 1 and the
next year's January 1. -/
theorem ymd2ord_bounds (y m d : Int) (h : ValidDate y m d) :
    ymd2ord y 1 1 ≤ ymd2ord y m d ∧ ymd2ord y m d < ymd2ord (y + 1) 1 1 := by
  obtain ⟨hy1, hy2, hm1, hm2, hd1, hd2⟩ := h
  have hs := ymd2ord_jan1_succ y
  unfold days_in_month DAYS_IN_MONTH at hd2
  unfold ymd2ord days_before_month DAYS_BEFORE_MONTH at hs ⊢
  rcases hb : is_leap y
  · simp only [hb] at hd2 hs ⊢
    norm_num at hd2 hs ⊢
    interval_cases m <;> norm_num at hd2 ⊢ <;> omega
  · simp only [hb] at hd2 hs ⊢
    norm_num at hd2 hs ⊢
    interval_cases m <;> norm_num at hd2 ⊢ <;> omega

/-- C8: the week-clock computation returns the ISO-8601 week number.  The
claimed examples hold (2024-01-01 is week 1 of ISO year 2024; 2024-12-31
is week 1 of ISO year 2025), and for every valid date the computed week
is an integer in `[1, 53]` equal to the index — counting from 1 — of the
date's Monday-start week within the ISO year `Y` whose week 1 is the week
containing `Y`'s first Thursday: the date's ordinal falls between
`week1MondaySpec Y` (inclusive) and `week1MondaySpec (Y+1)` (exclusive),
the computed ISO year is that `Y`, and the week number counts whole
Monday-weeks from `week1MondaySpec Y`. -/
theorem current_cw_is_iso_week :
    (current_cw 2024 1 1 = 1 ∧ (isocalendar 2024 1 1).1 = 2024) ∧
    (current_cw 2024 12 31 = 1 ∧ (isocalendar 2024 12 31).1 = 2025) ∧
    ∀ y m d : Int, ValidDate y m d →
      1 ≤ current_cw y m d ∧ current_cw y m d ≤ 53 ∧
      ∃ Y : Int, week1MondaySpec Y ≤ ymd2ord y m d ∧
        ymd2ord y m d < week1MondaySpec (Y + 1) ∧
        (isocalendar y m d).1 = Y ∧
        current_cw y m d = (ymd2ord y m d - week1MondaySpec Y) / 7 + 1 := by
  refine ⟨⟨by decide, by decide⟩, ⟨by decide, by decide⟩, ?_⟩
  intro y m d h
  have hb := ymd2ord_bounds y m d h
  have hsY := ymd2ord_jan1_succ y
  have hsY1 := ymd2ord_jan1_succ (y + 1)
  have hsYm := ymd2ord_jan1_succ (y - 1)
  have hw0 := isoweek1monday_bounds y
  have hwm := isoweek1monday_bounds (y - 1)
  have hw1 := isoweek1monday_bounds (y + 1)
  have hw2 := isoweek1monday_bounds (y + 2)
  have e1 : y - 1 + 1 = y := by ring
  have e2 : y + 1 + 1 = y + 2 := by ring
  rw [e1] at hsYm
  rw [e2] at hsY1
  have hsY' : 365 ≤ ymd2ord (y + 1) 1 1 - ymd2ord y 1 1 ∧
      ymd2ord (y + 1) 1 1 - ymd2ord y 1 1 ≤ 366 := by
    split_ifs at hsY <;> omega
  have hsY1' : 365 ≤ ymd2ord (y + 2) 1 1 - ymd2ord (y + 1) 1 1 ∧
      ymd2ord (y + 2) 1 1 - ymd2ord (y + 1) 1 1 ≤ 366 := by
    split_ifs at hsY1 <;> omega
  have hsYm' : 365 ≤ ymd2ord y 1 1 - ymd2ord (y - 1) 1 1 ∧
      ymd2ord y 1 1 - ymd2ord (y - 1) 1 1 ≤ 366 := by
    split_ifs at hsYm <;> omega
  clear hsY hsY1 hsYm
  simp only [current_cw, isocalendar, week1MondaySpec_eq]
  split_ifs with h1 h2 h3
  · refine ⟨?_, ?_, y - 1, ?_, ?_, rfl, rfl⟩
    · dsimp only; omega
    · dsimp only; omega
    · omega
    · rw [e1]; omega
  · refine ⟨?_, ?_, y + 1, ?_, ?_, rfl, ?_⟩
    · dsimp only; omega
    · dsimp only; omega
    · omega
    · rw [e2]; omega
    · dsimp only; omega
  · refine ⟨?_, ?_, y, ?_, ?_, rfl, rfl⟩
    · dsimp only; omega
    · dsimp only; omega
    · omega
    · omega
  · refine ⟨?_, ?_, y, ?_, ?_, rfl, rfl⟩
    · dsimp only; omega
    · dsimp only; omega
    · omega
    · omega

/-- Witness for C8: the universal part applied at the valid date
2026-10-12. -/
theorem current_cw_is_iso_week_witness :
    ValidDate 2026 10 12 ∧
    (1 ≤ current_cw 2026 10 12 ∧ current_cw 2026 10 12 ≤ 53 ∧
      ∃ Y : Int, week1MondaySpec Y ≤ ymd2ord 2026 10 12 ∧
        ymd2ord 2026 10 12 < week1MondaySpec (Y + 1) ∧
        (isocalendar 2026 10 12).1 = Y ∧
        current_cw 2026 10 12 = (ymd2ord 2026 10 12 - week1MondaySpec Y) / 7 + 1) :=
  ⟨by decide, current_cw_is_iso_week.2.2 2026 10 12 (by decide)⟩

end CalendarWeek
